import Mathlib

set_option maxRecDepth 8192

/-!
Shallow embedding of `fit_resonator/mattis_bardeen_fit.py` (class
`MBFitTemperatureSweep`), used to settle the claims about the
Mattis-Bardeen temperature-sweep fitting code.

Modelling conventions:
* Python floats are modelled as exact numbers: data values, solver
  iterates and configuration constants are `ℚ`; transcendental values
  (tanh, sqrt, pi, ...) live in `ℝ`.
* A NaN produced by `np.sqrt` of a negative number, and its propagation
  through subsequent arithmetic, is modelled by `Option`: `none` is NaN.
* External collaborators that are not part of this repository
  (the `mattisbardeen` routine `mb.surface_impedance`, the Bessel
  functions `k0`/`i0`, the complex square root used by numpy, the scipy
  solvers `least_squares`/`curve_fit`, numpy's Gaussian sampler, the
  external resonator fitter, and the display-layer string formatter,
  which the spec excludes from the core) are universally quantified
  oracle parameters, so every theorem holds for all of their behaviours.
* Decimal literals of the source are written as exact fractions
  (e.g. `0.95` becomes `95/100`).
-/

namespace MBFit

/-- scipy.constants.k (Boltzmann constant), 1.380649e-23. -/
def boltz_k : ℚ := 1380649 / 10 ^ 29

/-- scipy.constants.e (elementary charge), 1.602176634e-19. -/
def e_charge : ℚ := 1602176634 / 10 ^ 28

/-- kB = sc.k / sc.e as computed in `surface_impedance`. -/
def kB : ℚ := boltz_k / e_charge

/-- scipy.constants.h (Planck constant), 6.62607015e-34. -/
def planck_h : ℚ := 662607015 / 10 ^ 42

/-- scipy.constants.mu_0 (vacuum permeability), 1.25663706212e-6. -/
def mu_0 : ℚ := 125663706212 / 10 ^ 17

/-- Instance configuration of `MBFitTemperatureSweep.__init__` (the
attributes set in the constructor; keyword overrides may replace any of
them).  Field order: lambda0, d, use_jordans_rule, alpha_sim,
alpha_sim_err, confidence_level, sigma_n, init_Tc, init_alpha,
init_lambda. -/
structure MBConfig where
  lambda0 : ℚ
  d : ℚ
  use_jordans_rule : Bool
  alpha_sim : ℚ
  alpha_sim_err : ℚ
  confidence_level : ℚ
  sigma_n : ℚ
  init_Tc : ℚ
  init_alpha : ℚ
  init_lambda : ℚ

/-- Defaults from `__init__`: lambda0 = 65e-9, d = 5e-3,
use_jordans_rule = False, alpha_sim = 1e-4, alpha_sim_err = 1e-5,
confidence_level = 0.95, sigma_n = 3.767e7, init guess
Tc = 1.2, alpha = 1e-5, lambda = lambda0. -/
def defaultCfg : MBConfig :=
  ⟨65 / 10 ^ 9, 5 / 10 ^ 3, false, 1 / 10 ^ 4, 1 / 10 ^ 5, 95 / 100,
   3767 * 10 ^ 4, 6 / 5, 1 / 10 ^ 5, 65 / 10 ^ 9⟩

/-- External numeric collaborators, universally quantified in all
theorems.  `mbZs` is the delegated routine `mb.surface_impedance` with
argument order (fc, d, T, D, Tc, Vgap0, sigma_n, lambda0); `k0`/`i0`
are `scipy.special.k0/i0`; `csqrt` is numpy's complex square root. -/
structure Externals where
  mbZs : ℚ → ℚ → ℚ → ℝ → ℚ → ℚ → ℚ → ℚ → ℂ
  k0 : ℝ → ℝ
  i0 : ℝ → ℝ
  csqrt : ℂ → ℂ

/-- BCS gap proxy `D = np.tanh(1.74 * np.sqrt(Tc / T - 1.))` from
`surface_impedance`.  `np.sqrt` of a negative float is NaN (modelled as
`none`), and `np.tanh` propagates it. -/
noncomputable def gapD (T Tc : ℚ) : Option ℝ :=
  if 0 ≤ Tc / T - 1 then
    some (Real.tanh (1.74 * Real.sqrt ((Tc / T - 1 : ℚ) : ℝ)))
  else none

/-- Zero-temperature gap `D0 = 1.762 * kB * Tc` from `surface_impedance`. -/
def Vgap0 (Tc : ℚ) : ℚ := (1762 / 1000) * kB * Tc

/-- The `use_jordans_rule` branch of `surface_impedance` (closed-form
asymptotic formula with Bessel kernels).  It does not use the gap proxy
`D`, so a NaN in `D` does not reach it. -/
noncomputable def jordans_impedance (ext : Externals) (cfg : MBConfig)
    (T Tc fc : ℚ) : ℂ :=
  let D0 : ℚ := Vgap0 Tc
  let xsci : ℝ := ((planck_h * fc : ℚ) : ℝ) / ((2 * boltz_k * T : ℚ) : ℝ)
  let s1 : ℝ := (4 * (D0 : ℝ) / ((planck_h * fc / e_charge : ℚ) : ℝ)) *
    Real.exp (-(1762 / 1000) * (Tc : ℝ) / (T : ℝ)) * Real.sinh xsci * ext.k0 xsci
  let s2 : ℝ := Real.pi * (D0 : ℝ) / ((planck_h * fc / e_charge : ℚ) : ℝ) *
    (1 - Real.sqrt (((2 * kB * T : ℚ) : ℝ) / (D0 : ℝ)) *
        Real.exp (-(1762 / 1000) * (Tc : ℝ) / (T : ℝ)) -
      2 * Real.exp (-(1762 / 1000) * (Tc : ℝ) / (T : ℝ)) *
        Real.exp (-xsci) * ext.i0 xsci)
  let sigma : ℂ := (cfg.sigma_n : ℝ) * ((s1 : ℂ) - Complex.I * (s2 : ℝ))
  ext.csqrt (Complex.I * (mu_0 : ℝ) * (fc : ℝ) * 2 * Real.pi / sigma)

/-- `MBFitTemperatureSweep.surface_impedance(T, Tc, fc)`.  The default
path delegates to `mb.surface_impedance`; the gap proxy `D` is NaN when
`Tc / T - 1 < 0`, and a NaN gap argument makes the delegated result NaN
(modelled by the `Option.map`). -/
noncomputable def surface_impedance (ext : Externals) (cfg : MBConfig)
    (T Tc fc : ℚ) : Option ℂ :=
  if cfg.use_jordans_rule then some (jordans_impedance ext cfg T Tc fc)
  else (gapD T Tc).map fun D =>
    ext.mbZs fc cfg.d T D Tc (Vgap0 Tc) cfg.sigma_n cfg.lambda0

/-- Squared-residual function `fitfunres` defined inside
`fit_qi_vs_temperature` (alpha parameterization): entrywise
`(alpha * (Rs - Rs0) / Xs0 - oQi)**2` with `x = (Tc, alpha)`. -/
noncomputable def fitfunresQi (ext : Externals) (cfg : MBConfig)
    (T0 fc0 : ℚ) (x : ℚ × ℚ) (T oQi : List ℚ) : List (Option ℝ) :=
  List.zipWith (fun t o =>
    (surface_impedance ext cfg t x.1 fc0).bind fun Zs =>
    (surface_impedance ext cfg T0 x.1 fc0).map fun Zs0 =>
      ((x.2 : ℝ) * (Zs.re - Zs0.re) / Zs0.im - (o : ℝ)) ^ 2) T oQi

/-- Squared-residual function `fitfunreslambda` defined inside
`fit_qi_vs_temperature` (lambda parameterization): entrywise
`(alpha_sim * (Rs - Rs0) / Xs0 - oQi)**2` with
`Xs0 = 2 * np.pi * fc0 * sc.mu_0 * lambdaL` and `x = (Tc, lambdaL)`. -/
noncomputable def fitfunreslambdaQi (ext : Externals) (cfg : MBConfig)
    (T0 fc0 : ℚ) (x : ℚ × ℚ) (T oQi : List ℚ) : List (Option ℝ) :=
  List.zipWith (fun t o =>
    (surface_impedance ext cfg t x.1 fc0).bind fun Zs =>
    (surface_impedance ext cfg T0 x.1 fc0).map fun Zs0 =>
      ((cfg.alpha_sim : ℝ) * (Zs.re - Zs0.re) /
        (2 * Real.pi * (fc0 : ℝ) * (mu_0 : ℝ) * (x.2 : ℝ)) - (o : ℝ)) ^ 2)
    T oQi

/-- Evaluation function `fitfun` defined inside `fit_qi_vs_temperature`
(alpha parameterization): entrywise `alpha * (Rs - Rs0) / Xs0`. -/
noncomputable def fitfunQi (ext : Externals) (cfg : MBConfig)
    (T0 fc0 : ℚ) (T : List ℚ) (Tc alpha : ℚ) : List (Option ℝ) :=
  T.map fun t =>
    (surface_impedance ext cfg t Tc fc0).bind fun Zs =>
    (surface_impedance ext cfg T0 Tc fc0).map fun Zs0 =>
      (alpha : ℝ) * (Zs.re - Zs0.re) / Zs0.im

/-- Evaluation function `fitfunlambda` defined inside
`fit_qi_vs_temperature` (lambda parameterization): entrywise
`alpha_sim * (Rs - Rs0) / Xs0` with
`Xs0 = 2 * np.pi * fc0 * sc.mu_0 * lambdaL`. -/
noncomputable def fitfunlambdaQi (ext : Externals) (cfg : MBConfig)
    (T0 fc0 : ℚ) (T : List ℚ) (Tc lambdaL : ℚ) : List (Option ℝ) :=
  T.map fun t =>
    (surface_impedance ext cfg t Tc fc0).bind fun Zs =>
    (surface_impedance ext cfg T0 Tc fc0).map fun Zs0 =>
      (cfg.alpha_sim : ℝ) * (Zs.re - Zs0.re) /
        (2 * Real.pi * (fc0 : ℝ) * (mu_0 : ℝ) * (lambdaL : ℝ))

/-- `np.min` over the temperature array (`TT.min()`); `T0` in
`fit_qi_vs_temperature` / `fit_fc_vs_temperature`. -/
def npMin : List ℚ → ℚ
  | [] => 0
  | x :: xs => xs.foldl min x

/-- `np.max` over the temperature array (`TT.max()`). -/
def npMax : List ℚ → ℚ
  | [] => 0
  | x :: xs => xs.foldl max x

/-- Observed Qi deltas from `fit_qi_vs_temperature`:
`ooQi = 1./Qi - 1./Qi[0]`. -/
def ooQiDeltas (Qi : List ℚ) : List ℚ :=
  Qi.map fun q => 1 / q - 1 / Qi.getD 0 0

/-- Observed fc deltas from `fit_fc_vs_temperature`:
`oofc = (fc - fc[0]) / fc[0]`. -/
def oofcDeltas (fc : List ℚ) : List ℚ :=
  fc.map fun f => (f - fc.getD 0 0) / fc.getD 0 0

/-- The reference frequency used by both fitting entry points:
`fc0 = self.fc[0]`. -/
def fc0val (fc : List ℚ) : ℚ := fc.getD 0 0

/-- The reference temperature used by the model:
`T0 = TT.min()`. -/
def T0val (TT : List ℚ) : ℚ := npMin TT

/-- `np.linspace(a, b, n)`: n evenly spaced points from a to b
inclusive, step `(b - a) / (n - 1)`. -/
def npLinspace (a b : ℚ) (n : ℕ) : List ℚ :=
  (List.range n).map fun i : ℕ => a + (i : ℚ) * (b - a) / ((n : ℚ) - 1)

/-- `np.mean` of a real vector. -/
noncomputable def npMean (l : List ℝ) : ℝ := l.sum / l.length

/-- `np.std` of a real vector (population standard deviation,
ddof = 0). -/
noncomputable def npStd (l : List ℝ) : ℝ :=
  Real.sqrt (npMean (l.map fun x => (x - npMean l) ^ 2))

/-- Linear interpolation into a sorted vector at fractional index `h`,
the core of `np.quantile` with the default interpolation. -/
noncomputable def interpSorted (s : List ℝ) (h : ℝ) : ℝ :=
  s.getD (⌊h⌋).toNat 0 +
    (h - ((⌊h⌋ : ℤ) : ℝ)) *
      (s.getD ((⌊h⌋).toNat + 1) 0 - s.getD (⌊h⌋).toNat 0)

/-- `np.quantile(xs, p)` with the default linear interpolation: sort,
then interpolate at fractional index `p * (len - 1)`. -/
noncomputable def npQuantile (xs : List ℝ) (p : ℝ) : ℝ :=
  interpSorted (List.insertionSort (· ≤ ·) xs) (p * ((xs.length : ℝ) - 1))

/-- Column `i` of a row-major matrix; `np.quantile(..., axis=0)` acts
on these columns. -/
def columnOf (rows : List (List ℝ)) (i : ℕ) : List ℝ :=
  rows.map fun r => r.getD i 0

/-- The Monte Carlo resamples of `fit_generic`:
`predictions = np.array([np.random.normal(datapred, noise) for j in
range(10_000)])`.  Modelled from the spec: `np.random.normal(loc,
scale)` is `loc + scale * g` where `g j k` is the external sampler's
standard-normal draw for resample `j`, grid point `k`. -/
noncomputable def mcPredictions (gauss : ℕ → ℕ → ℝ)
    (datapred : List ℝ) (noise : ℝ) : List (List ℝ) :=
  (List.range 10000).map fun j =>
    datapred.mapIdx fun k x => x + noise * gauss j k

/-- First row of `np.quantile(predictions, [1 - a, a], axis=0)`: the
value bound to `upper` in `fit_generic`. -/
noncomputable def bandUpper (rows : List (List ℝ)) (gridlen : ℕ)
    (a : ℚ) : List ℝ :=
  (List.range gridlen).map fun i =>
    npQuantile (columnOf rows i) (((1 - a : ℚ) : ℝ))

/-- Second row of `np.quantile(predictions, [1 - a, a], axis=0)`: the
value bound to `lower` in `fit_generic`. -/
noncomputable def bandLower (rows : List (List ℝ)) (gridlen : ℕ)
    (a : ℚ) : List ℝ :=
  (List.range gridlen).map fun i =>
    npQuantile (columnOf rows i) ((a : ℚ) : ℝ)

/-- Output of `scipy.optimize.least_squares` (an external solver,
modelled by its result record): optimum `x`, Jacobian `jac` and
residual vector `fun` (named `fres` here) at the optimum, for a
residual vector of length `n` and 2 fit parameters. -/
structure LsqResult (n : ℕ) where
  x : Fin 2 → ℚ
  jac : Fin n → Fin 2 → ℚ
  fres : Fin n → ℚ

/-- Output of `scipy.optimize.curve_fit` (an external solver, modelled
by its result record): optimal parameters `popt` and covariance
`pcov`. -/
structure CFResult where
  popt : Fin 2 → ℚ
  pcov : Fin 2 → Fin 2 → ℚ

/-- `J.T @ J` for the `n × 2` Jacobian. -/
def gram2 {n : ℕ} (J : Fin n → Fin 2 → ℚ) : Fin 2 → Fin 2 → ℚ :=
  fun a b => ∑ k, J k a * J k b

/-- `J.T @ J + np.eye(2) * 1e-8` from `fit_generic`. -/
def ridge2 {n : ℕ} (J : Fin n → Fin 2 → ℚ) : Fin 2 → Fin 2 → ℚ :=
  fun a b => gram2 J a b + if a = b then 1 / 10 ^ 8 else 0

/-- Determinant of a 2 × 2 matrix. -/
def det2 (M : Fin 2 → Fin 2 → ℚ) : ℚ :=
  M 0 0 * M 1 1 - M 0 1 * M 1 0

/-- `np.linalg.inv` on a 2 × 2 matrix (adjugate over determinant, the
inverse whenever the matrix is invertible). -/
def inv2 (M : Fin 2 → Fin 2 → ℚ) : Fin 2 → Fin 2 → ℚ :=
  fun a b =>
    (if a = 0 then (if b = 0 then M 1 1 else -(M 0 1))
     else (if b = 0 then -(M 1 0) else M 0 0)) / det2 M

/-- `mse = np.sum(residuals) / (2 * len(TT) - len(x0))` from
`fit_generic`; `len(x0) = 2` since both parameterizations fit exactly
two parameters.  Note the raw residual vector is summed. -/
def lsqMse {n : ℕ} (fres : Fin n → ℚ) (nTT : ℕ) : ℚ :=
  (∑ k, fres k) / (2 * (nTT : ℚ) - 2)

/-- `cov = mse * np.linalg.inv(J.T @ J + np.eye(J.shape[1]) * 1e-8)`
from `fit_generic`. -/
def lsqCov {n : ℕ} (fres : Fin n → ℚ) (J : Fin n → Fin 2 → ℚ)
    (nTT : ℕ) : Fin 2 → Fin 2 → ℚ :=
  fun a b => lsqMse fres nTT * inv2 (ridge2 J) a b

/-- `errors = np.sqrt(np.diag(cov))` from `fit_generic` (the
least-squares error estimate, later overwritten by the curve-fit
one). -/
noncomputable def lsqErrors {n : ℕ} (fres : Fin n → ℚ)
    (J : Fin n → Fin 2 → ℚ) (nTT : ℕ) : Fin 2 → ℝ :=
  fun a => Real.sqrt ((lsqCov fres J nTT a a : ℚ) : ℝ)

/-- Return value of `fit_generic`:
`(TT_dense, datapred, upper, lower, label)`. -/
structure FitOutcome where
  dense : List ℚ
  pred : List ℝ
  upper : List ℝ
  lower : List ℝ
  label : String

/-- `MBFitTemperatureSweep.fit_generic`.  The scipy solvers are
external: their results `lsq` and `cf` are inputs.  `fitf` is the
evaluation function passed as `fitfun` (a real-valued prediction per
temperature), `fmt` models the display-layer `format_error_strings`
(string formatting is excluded from the core by the spec), and `gauss`
is the external standard-normal sampler.  The printing of the
least-squares diagnostics is a side effect with no returned value and
is not modelled. -/
noncomputable def fit_generic (cfg : MBConfig) (use_alpha_sim : Bool)
    (fitf : List ℚ → ℚ → ℚ → List ℝ) (fmt : String → ℝ → ℝ → String)
    (gauss : ℕ → ℕ → ℝ) (TT data : List ℚ)
    (lsq : LsqResult TT.length) (cf : CFResult) : FitOutcome :=
  let errors0 := lsqErrors lsq.fres lsq.jac TT.length
  let TT_dense := npLinspace (npMin TT) (npMax TT) 1000
  if use_alpha_sim then
    let Tcfit := cf.popt 0
    let lambdafit := cf.popt 1
    let errors : Fin 2 → ℝ := fun a => Real.sqrt ((cf.pcov a a : ℚ) : ℝ)
    let datapred0 := fitf TT Tcfit lambdafit
    let datapred := fitf TT_dense Tcfit lambdafit
    let lambda_str := fmt "\\lambda_L" (lambdafit : ℝ) (errors 1)
    let Tc_str := fmt "T_c" (Tcfit : ℝ) (errors 0)
    let alpha_sim_str := fmt "\\alpha_s" (cfg.alpha_sim : ℝ)
      (cfg.alpha_sim_err : ℝ)
    let label := lambda_str ++ "\n" ++ Tc_str ++ "\n" ++ alpha_sim_str
    let noise := npStd (List.zipWith (fun d p => (d : ℝ) - p) data datapred0)
    let preds := mcPredictions gauss datapred noise
    ⟨TT_dense, datapred,
     bandUpper preds datapred.length cfg.confidence_level,
     bandLower preds datapred.length cfg.confidence_level, label⟩
  else
    let Tcfit := cf.popt 0
    let alphafit := cf.popt 1
    let errors : Fin 2 → ℝ := fun a => Real.sqrt ((cf.pcov a a : ℚ) : ℝ)
    let datapred0 := fitf TT Tcfit alphafit
    let datapred := fitf TT_dense Tcfit alphafit
    let alpha_str := fmt "\\alpha" (alphafit : ℝ) (errors 1)
    let Tc_str := fmt "T_c" (Tcfit : ℝ) (errors 0)
    let label := alpha_str ++ "\n" ++ Tc_str
    let noise := npStd (List.zipWith (fun d p => (d : ℝ) - p) data datapred0)
    let preds := mcPredictions gauss datapred noise
    ⟨TT_dense, datapred,
     bandUpper preds datapred.length cfg.confidence_level,
     bandLower preds datapred.length cfg.confidence_level, label⟩

/-- Python runtime errors that the orchestration loop can actually
produce; note there is no dataset-shape error among them. -/
inductive PyErr where
  | indexError
deriving DecidableEq

/-- Result of the external resonator fitter `res.fit(...)`: the
parameter vector `[Q, Qc_mag, fc, Qc_phase, ...]` and the
confidence-interval half-widths. -/
structure ResPar where
  params : Fin 6 → ℚ
  confInts : Fin 6 → ℚ

/-- One iteration body of `fit_resonator_responses`: after the external
fit, extract `Qc = params[1] * np.exp(1j * params[3])`,
`Qi = 1. / (1. / params[0] - np.real(1. / Qc))`, `fc = params[2]`,
`Qierr = conf_ints[1]`, `fcerr = conf_ints[5]`. -/
noncomputable def resonatorEntry (r : ResPar) : ℝ × ℚ × ℚ × ℚ :=
  let Qc : ℂ := ((r.params 1 : ℚ) : ℝ) *
    Complex.exp (Complex.I * ((r.params 3 : ℚ) : ℝ))
  let Qi : ℝ := 1 / (1 / ((r.params 0 : ℚ) : ℝ) - (1 / Qc).re)
  (Qi, r.params 2, r.confInts 1, r.confInts 5)

/-- Loop of `fit_resonator_responses` over `enumerate(files)`: at each
index the external resonator fit runs first, and only afterwards does
the status print read `self.temperatures[idx]` (an IndexError when the
temperature list is shorter than the file list). -/
noncomputable def responsesLoop (resFit : String → ResPar)
    (temperatures : List ℚ) :
    ℕ → List String → Except PyErr (List (ℝ × ℚ × ℚ × ℚ))
  | _, [] => .ok []
  | idx, f :: rest =>
    let entry := resonatorEntry (resFit f)
    match temperatures.get? idx with
    | none => .error .indexError
    | some _ =>
      (responsesLoop resFit temperatures (idx + 1) rest).map
        fun l => entry :: l

/-- `MBFitTemperatureSweep.fit_resonator_responses`, called at the end
of `__init__` with no prior validation of the input lists.  `resFit`
models the external resonator-fitting collaborator. -/
noncomputable def fit_resonator_responses (resFit : String → ResPar)
    (temperatures : List ℚ) (s21_files : List String) :
    Except PyErr (List (ℝ × ℚ × ℚ × ℚ)) :=
  responsesLoop resFit temperatures 0 s21_files

/-- The spec's formula for the lambda-parameterized Qi law, written
from its words: the multiplicative coefficient is the fixed external
estimate `alpha_sim` and the denominator `Xs(T0)` is the analytic
reactance `2 pi fc0 mu0 lambdaL`. -/
noncomputable def qiLambdaSpecForm (ext : Externals) (cfg : MBConfig)
    (T0 fc0 t Tc lambdaL : ℚ) : Option ℝ :=
  (surface_impedance ext cfg t Tc fc0).bind fun Zs =>
  (surface_impedance ext cfg T0 Tc fc0).map fun Zs0 =>
    (cfg.alpha_sim : ℝ) * (Zs.re - Zs0.re) /
      (2 * Real.pi * (fc0 : ℝ) * (mu_0 : ℝ) * (lambdaL : ℝ))

/-- Bundle of the dense-grid facts claimed for `fit_generic`'s output:
grid is `linspace(min, max, 1000)`, has length 1000, starts at the
minimum, ends at the maximum, is evenly spaced, and the predicted
curve is the evaluation function applied to it (hence of length
1000). -/
def denseGridOK (fitf : List ℚ → ℚ → ℚ → List ℝ) (cf : CFResult)
    (TT : List ℚ) (out : FitOutcome) : Prop :=
  out.dense = npLinspace (npMin TT) (npMax TT) 1000
  ∧ out.dense.length = 1000
  ∧ out.dense.getD 0 0 = npMin TT
  ∧ out.dense.getD 999 0 = npMax TT
  ∧ (∀ i : ℕ, i + 1 < 1000 →
      out.dense.getD (i + 1) 0 - out.dense.getD i 0 =
        (npMax TT - npMin TT) / 999)
  ∧ out.pred = fitf out.dense (cf.popt 0) (cf.popt 1)
  ∧ out.pred.length = 1000

/-- Bundle of the reference-mismatch facts of the two fitting entry
points: observed deltas vanish at array index 0 and use `fc0 = fc[0]`,
while the model reference is `T0 = min(temperatures)` (illustrated on
the temperature list `[1/5, 1/10]`, whose first element is not its
minimum), and the model delta vanishes at the minimum temperature. -/
def refMismatchOK (q0 f0 : ℚ) (qt ft : List ℚ) : Prop :=
  (ooQiDeltas (q0 :: qt)).getD 0 0 = 0
  ∧ (oofcDeltas (f0 :: ft)).getD 0 0 = 0
  ∧ fc0val (f0 :: ft) = f0
  ∧ T0val [1 / 5, 1 / 10] = 1 / 10
  ∧ [(1 : ℚ) / 5, 1 / 10].getD 0 0 = 1 / 5
  ∧ (1 : ℚ) / 10 ≠ 1 / 5
  ∧ ∀ (ext : Externals) (alpha : ℚ),
      fitfunQi ext defaultCfg (1 / 10) f0 [1 / 10] (6 / 5) alpha =
        [some 0]

/-- Concrete evaluation function used by witnesses: predicts 0 at
every temperature. -/
def wfitf : List ℚ → ℚ → ℚ → List ℝ := fun l _ _ => l.map fun _ => 0

/-- Concrete formatter used by witnesses. -/
def wfmt : String → ℝ → ℝ → String := fun _ _ _ => ""

/-- Concrete standard-normal draw stream used by witnesses. -/
def wgauss : ℕ → ℕ → ℝ := fun _ _ => 0

/-- Concrete least-squares solver result used by witnesses (one data
point). -/
def wlsq1 : LsqResult 1 := ⟨fun _ => 0, fun _ _ => 0, fun _ => 0⟩

/-- Concrete least-squares solver result used by witnesses (two data
points). -/
def wlsq2 : LsqResult 2 := ⟨fun _ => 0, fun _ _ => 0, fun _ => 0⟩

/-- Concrete curve-fit solver result used by witnesses. -/
def wcf : CFResult := ⟨fun _ => 0, fun _ _ => 0⟩

/-- Concrete configuration used by witnesses, with a confidence level
strictly above one half. -/
def wcfg : MBConfig := ⟨0, 0, false, 0, 0, 1, 0, 0, 0, 0⟩

lemma gapD_eq_none {T Tc : ℚ} (h : Tc / T - 1 < 0) : gapD T Tc = none :=
  if_neg (not_le.mpr h)

/-- C1: in `fit_generic` the least-squares covariance block computes
`mse = sum(residuals) / (2 N - P)` with `N = len(TT)`, `P = 2`,
`cov = mse * inv(J^T J + 1e-8 I)` and `errors = sqrt(diag(cov))`, and
the mse term sums the raw residual vector, not its elementwise
square. -/
theorem C1_covariance_formula :
    (∀ (n : ℕ) (fres : Fin n → ℚ) (J : Fin n → Fin 2 → ℚ) (nTT : ℕ)
        (a : Fin 2),
      lsqErrors fres J nTT a =
        Real.sqrt ((((∑ k, fres k) / (2 * (nTT : ℚ) - 2)) *
          inv2 (fun i j => (∑ k, J k i * J k j) +
            if i = j then 1 / 10 ^ 8 else 0) a a : ℚ) : ℝ))
    ∧ lsqMse (![(1 : ℚ), 2, 3]) 3 = (1 + 2 + 3) / (2 * 3 - 2)
    ∧ lsqMse (![(1 : ℚ), 2, 3]) 3 ≠
        (1 ^ 2 + 2 ^ 2 + 3 ^ 2 : ℚ) / (2 * 3 - 2) := by
  refine ⟨fun n fres J nTT a => rfl, ?_, ?_⟩
  · simp [lsqMse, Fin.sum_univ_three]
  · simp only [lsqMse, Fin.sum_univ_three]
    norm_num [Matrix.cons_val_zero, Matrix.cons_val_one]

/-- C2: when a solver step proposes `Tc <= T0` the residual objective
`fitfunres` does not return a large finite penalty: the BCS gap term is
NaN (modelled as `none`) and propagates into every residual entry, for
any behaviour of the external impedance routine. -/
theorem C2_residual_objective_nan (ext : Externals) (alpha : ℚ) :
    fitfunresQi ext defaultCfg (1 / 10) (5 * 10 ^ 9) (1 / 20, alpha)
      [1 / 10, 1 / 5] [0, 0] = [none, none] := by
  norm_num [fitfunresQi, surface_impedance, defaultCfg, gapD]

/-- C3: a direct call of the Qi-law evaluation function with
`Tc <= min(temperatures)` does not raise any error: it silently
returns NaN entries (modelled as `none`), for any behaviour of the
external impedance routine. -/
theorem C3_fitfun_silent_nan (ext : Externals) (alpha : ℚ) :
    fitfunQi ext defaultCfg (1 / 10) (5 * 10 ^ 9) [1 / 10, 1 / 5]
      (1 / 20) alpha = [none, none] := by
  norm_num [fitfunQi, surface_impedance, defaultCfg, gapD]

/-- C5: the returned tuple of `fit_generic` (dense grid, prediction,
band, label) is computed from the curve-fit solver's `(popt, pcov)`
only: it is unchanged under any replacement of the least-squares
result, in both parameterizations, and the label's error bars are
`sqrt(diag(pcov))` applied to `popt`. -/
theorem C5_curve_fit_authoritative (cfg : MBConfig) (flag : Bool)
    (fitf : List ℚ → ℚ → ℚ → List ℝ) (fmt : String → ℝ → ℝ → String)
    (gauss : ℕ → ℕ → ℝ) (TT data : List ℚ)
    (lsq lsq' : LsqResult TT.length) (cf : CFResult) :
    fit_generic cfg flag fitf fmt gauss TT data lsq cf =
      fit_generic cfg flag fitf fmt gauss TT data lsq' cf
    ∧ (fit_generic cfg false fitf fmt gauss TT data lsq cf).label =
        fmt "\\alpha" ((cf.popt 1 : ℚ) : ℝ)
            (Real.sqrt ((cf.pcov 1 1 : ℚ) : ℝ)) ++ "\n" ++
          fmt "T_c" ((cf.popt 0 : ℚ) : ℝ)
            (Real.sqrt ((cf.pcov 0 0 : ℚ) : ℝ))
    ∧ (fit_generic cfg true fitf fmt gauss TT data lsq cf).label =
        fmt "\\lambda_L" ((cf.popt 1 : ℚ) : ℝ)
            (Real.sqrt ((cf.pcov 1 1 : ℚ) : ℝ)) ++ "\n" ++
          fmt "T_c" ((cf.popt 0 : ℚ) : ℝ)
            (Real.sqrt ((cf.pcov 0 0 : ℚ) : ℝ)) ++ "\n" ++
          fmt "\\alpha_s" (cfg.alpha_sim : ℝ) (cfg.alpha_sim_err : ℝ) :=
  ⟨rfl, rfl, rfl⟩

/-- C6: the lambda-parameterized Qi-law variants use the fixed
external estimate `alpha_sim` as coefficient and the analytic
reactance `2 pi fc0 mu0 lambdaL` as denominator, with `(Tc, lambdaL)`
the fitted pair, and the squared-residual variant is the square of
(that prediction minus the observed delta). -/
theorem C6_lambda_parameterization (ext : Externals) (cfg : MBConfig)
    (T0 fc0 : ℚ) (T oQi : List ℚ) (Tc lambdaL : ℚ) :
    fitfunlambdaQi ext cfg T0 fc0 T Tc lambdaL =
      T.map (fun t => qiLambdaSpecForm ext cfg T0 fc0 t Tc lambdaL)
    ∧ fitfunreslambdaQi ext cfg T0 fc0 (Tc, lambdaL) T oQi =
      List.zipWith (fun t o =>
        (qiLambdaSpecForm ext cfg T0 fc0 t Tc lambdaL).map
          fun p => (p - (o : ℝ)) ^ 2) T oQi := by
  refine ⟨rfl, ?_⟩
  unfold fitfunreslambdaQi
  congr 1
  funext t o
  cases hS : surface_impedance ext cfg t Tc fc0 with
  | none => simp [qiLambdaSpecForm, hS]
  | some z =>
    cases hS0 : surface_impedance ext cfg T0 Tc fc0 with
    | none => simp [qiLambdaSpecForm, hS, hS0]
    | some z0 => simp [qiLambdaSpecForm, hS, hS0]

/-- C7: the constructor performs no shape validation: with more
temperatures than files the orchestration completes normally (here one
resonator fit runs on one file although there are two temperatures and
fewer points than fit parameters), and with more files than
temperatures the failure is a late IndexError, raised only after the
first resonator fit already ran; no dataset-shape error exists. -/
theorem C7_no_shape_validation (rf : String → ResPar) :
    fit_resonator_responses rf [1 / 10, 1 / 5] ["f"] =
      .ok [resonatorEntry (rf "f")]
    ∧ fit_resonator_responses rf [1 / 10] ["f", "g"] =
      .error .indexError :=
  ⟨rfl, rfl⟩

/-- C10: the observed delta sequences are referenced to array index 0
(the delta at index 0 is exactly zero and `fc0 = fc[0]`), while the
model is referenced to `T0 = min(temperatures)`; the two differ when
the first listed temperature is not the minimum, and the model delta
vanishes at the minimum temperature, not at index 0. -/
theorem C10_reference_mismatch (q0 f0 : ℚ) (qt ft : List ℚ)
    (hq : q0 ≠ 0) (hf : f0 ≠ 0) : refMismatchOK q0 f0 qt ft := by
  unfold refMismatchOK
  refine ⟨?_, ?_, rfl, by norm_num [T0val, npMin, min_def], rfl,
    by norm_num, ?_⟩
  · simp [ooQiDeltas]
  · simp [oofcDeltas]
  · intro ext alpha
    norm_num [fitfunQi, surface_impedance, defaultCfg, gapD]

/-- C4 counterexample: the Monte Carlo resample count is not
configurable: no instance configuration (nor any other input) can make
the number of drawn resamples differ from the hard-coded 10,000. -/
theorem C4_resamples_not_configurable :
    ¬ ∃ (cfg : MBConfig) (gauss : ℕ → ℕ → ℝ) (datapred : List ℝ)
        (noise : ℝ),
      (mcPredictions gauss datapred noise).length ≠ 10000 := by
  rintro ⟨cfg, gauss, datapred, noise, h⟩
  exact h (by simp [mcPredictions])

/-- C4 (amended): `fit_generic` builds the prediction band from a
fixed 10,000 resamples: noise is the standard deviation of (observed
data minus model prediction at the observed temperatures), each
resample perturbs the dense-grid prediction by the sampler's Gaussian
draws scaled by that noise, and the per-grid-point empirical quantiles
at `1 - confidence_level` and `confidence_level` (default 0.95) are
returned as the upper and lower bounds respectively. -/
theorem C4_band_construction (cfg : MBConfig) (flag : Bool)
    (fitf : List ℚ → ℚ → ℚ → List ℝ) (fmt : String → ℝ → ℝ → String)
    (gauss : ℕ → ℕ → ℝ) (TT data : List ℚ)
    (lsq : LsqResult TT.length) (cf : CFResult) :
    (fit_generic cfg flag fitf fmt gauss TT data lsq cf).upper =
      (List.range (fitf (npLinspace (npMin TT) (npMax TT) 1000)
          (cf.popt 0) (cf.popt 1)).length).map (fun i =>
        npQuantile
          (columnOf (mcPredictions gauss
            (fitf (npLinspace (npMin TT) (npMax TT) 1000)
              (cf.popt 0) (cf.popt 1))
            (npStd (List.zipWith (fun d p => (d : ℝ) - p) data
              (fitf TT (cf.popt 0) (cf.popt 1))))) i)
          (((1 - cfg.confidence_level : ℚ) : ℝ)))
    ∧ (fit_generic cfg flag fitf fmt gauss TT data lsq cf).lower =
      (List.range (fitf (npLinspace (npMin TT) (npMax TT) 1000)
          (cf.popt 0) (cf.popt 1)).length).map (fun i =>
        npQuantile
          (columnOf (mcPredictions gauss
            (fitf (npLinspace (npMin TT) (npMax TT) 1000)
              (cf.popt 0) (cf.popt 1))
            (npStd (List.zipWith (fun d p => (d : ℝ) - p) data
              (fitf TT (cf.popt 0) (cf.popt 1))))) i)
          ((cfg.confidence_level : ℚ) : ℝ))
    ∧ (∀ (datapred : List ℝ) (noise : ℝ),
        mcPredictions gauss datapred noise =
          (List.range 10000).map fun j =>
            datapred.mapIdx fun k x => x + noise * gauss j k)
    ∧ (∀ (datapred : List ℝ) (noise : ℝ),
        (mcPredictions gauss datapred noise).length = 10000)
    ∧ defaultCfg.confidence_level = 95 / 100 := by
  refine ⟨?_, ?_, fun dp ns => rfl, fun dp ns => by simp [mcPredictions],
    rfl⟩ <;> cases flag <;> rfl

lemma npLinspace_length (a b : ℚ) (n : ℕ) :
    (npLinspace a b n).length = n := by
  rw [npLinspace, List.length_map, List.length_range]

lemma npLinspace_getD (a b : ℚ) (n i : ℕ) (h : i < n) :
    (npLinspace a b n).getD i 0 = a + i * (b - a) / ((n : ℚ) - 1) := by
  rw [List.getD_eq_getElem _ _ (by rw [npLinspace_length]; exact h)]
  simp only [npLinspace, List.getElem_map, List.getElem_range]

lemma sorted_getD_mono {s : List ℝ} (hs : s.Sorted (· ≤ ·)) {i j : ℕ}
    (hij : i ≤ j) (hj : j < s.length) : s.getD i 0 ≤ s.getD j 0 := by
  have hi : i < s.length := lt_of_le_of_lt hij hj
  rw [List.getD_eq_getElem s 0 hi, List.getD_eq_getElem s 0 hj]
  have hrel := hs.rel_get_of_le
    (Fin.mk_le_mk.mpr hij : (⟨i, hi⟩ : Fin s.length) ≤ ⟨j, hj⟩)
  rwa [List.get_eq_getElem, List.get_eq_getElem] at hrel

lemma interpSorted_mono {s : List ℝ} (hs : s.Sorted (· ≤ ·))
    (hne : s ≠ []) {h₁ h₂ : ℝ} (h0 : 0 ≤ h₁) (h12 : h₁ ≤ h₂)
    (hub : h₂ ≤ (s.length : ℝ) - 1) :
    interpSorted s h₁ ≤ interpSorted s h₂ := by
  have hn : 0 < s.length := List.length_pos.mpr hne
  have h0₂ : (0 : ℝ) ≤ h₂ := le_trans h0 h12
  have hf₁0 : 0 ≤ ⌊h₁⌋ := Int.floor_nonneg.mpr h0
  have hf₂0 : 0 ≤ ⌊h₂⌋ := Int.floor_nonneg.mpr h0₂
  have hc₁ : ((⌊h₁⌋.toNat : ℕ) : ℝ) = ((⌊h₁⌋ : ℤ) : ℝ) := by
    exact_mod_cast congrArg (fun z : ℤ => (z : ℝ)) (Int.toNat_of_nonneg hf₁0)
  have hc₂ : ((⌊h₂⌋.toNat : ℕ) : ℝ) = ((⌊h₂⌋ : ℤ) : ℝ) := by
    exact_mod_cast congrArg (fun z : ℤ => (z : ℝ)) (Int.toNat_of_nonneg hf₂0)
  have hub₂ : ⌊h₂⌋ ≤ (s.length : ℤ) - 1 := by
    have hcast : h₂ ≤ (((s.length : ℤ) - 1 : ℤ) : ℝ) := by push_cast; linarith
    have := Int.floor_le_floor hcast
    rwa [Int.floor_intCast] at this
  have hi₂lt : ⌊h₂⌋.toNat < s.length := by omega
  have hi₁le : ⌊h₁⌋.toNat ≤ ⌊h₂⌋.toNat := by
    have := Int.floor_le_floor h12; omega
  have hi₁lt : ⌊h₁⌋.toNat < s.length := lt_of_le_of_lt hi₁le hi₂lt
  have hfrac₁0 : 0 ≤ h₁ - ((⌊h₁⌋ : ℤ) : ℝ) := sub_nonneg.mpr (Int.floor_le h₁)
  have hfrac₁1 : h₁ - ((⌊h₁⌋ : ℤ) : ℝ) ≤ 1 := by
    have := Int.lt_floor_add_one h₁; push_cast at this ⊢; linarith
  have hfrac₂0 : 0 ≤ h₂ - ((⌊h₂⌋ : ℤ) : ℝ) := sub_nonneg.mpr (Int.floor_le h₂)
  rcases eq_or_lt_of_le hi₁le with heq | hlt
  · by_cases hend : ⌊h₁⌋.toNat + 1 < s.length
    · have hslope : s.getD (⌊h₁⌋.toNat) 0 ≤ s.getD (⌊h₁⌋.toNat + 1) 0 :=
        sorted_getD_mono hs (Nat.le_succ _) hend
      have hfeq : ⌊h₁⌋ = ⌊h₂⌋ := by omega
      unfold interpSorted
      rw [← hfeq]
      have hmul := mul_le_mul_of_nonneg_right
        (sub_le_sub_right h12 ((⌊h₁⌋ : ℤ) : ℝ))
        (sub_nonneg.mpr hslope)
      linarith
    · have hieq : ⌊h₁⌋.toNat = s.length - 1 := by omega
      have hcastlen : ((s.length - 1 : ℕ) : ℝ) = (s.length : ℝ) - 1 := by
        push_cast [Nat.cast_sub hn]; ring
      have hge : (s.length : ℝ) - 1 ≤ h₁ := by
        have hfl : ((⌊h₁⌋ : ℤ) : ℝ) ≤ h₁ := Int.floor_le h₁
        rw [← hc₁, hieq, hcastlen] at hfl
        exact hfl
      have heq₁₂ : h₁ = h₂ := le_antisymm h12 (by linarith)
      rw [heq₁₂]
  · have hi₁1lt : ⌊h₁⌋.toNat + 1 < s.length :=
      lt_of_le_of_lt (Nat.succ_le_of_lt hlt) hi₂lt
    have step1 : interpSorted s h₁ ≤ s.getD (⌊h₁⌋.toNat + 1) 0 := by
      have hslope : s.getD (⌊h₁⌋.toNat) 0 ≤ s.getD (⌊h₁⌋.toNat + 1) 0 :=
        sorted_getD_mono hs (Nat.le_succ _) hi₁1lt
      unfold interpSorted
      nlinarith
    have step2 : s.getD (⌊h₁⌋.toNat + 1) 0 ≤ s.getD (⌊h₂⌋.toNat) 0 :=
      sorted_getD_mono hs (Nat.succ_le_of_lt hlt) hi₂lt
    have step3 : s.getD (⌊h₂⌋.toNat) 0 ≤ interpSorted s h₂ := by
      by_cases hend : ⌊h₂⌋.toNat + 1 < s.length
      · have hslope : s.getD (⌊h₂⌋.toNat) 0 ≤ s.getD (⌊h₂⌋.toNat + 1) 0 :=
          sorted_getD_mono hs (Nat.le_succ _) hend
        unfold interpSorted
        nlinarith
      · have hieq : ⌊h₂⌋.toNat = s.length - 1 := by omega
        have hcastlen : ((s.length - 1 : ℕ) : ℝ) = (s.length : ℝ) - 1 := by
          push_cast [Nat.cast_sub hn]; ring
        have hfl : ((⌊h₂⌋ : ℤ) : ℝ) = (s.length : ℝ) - 1 := by
          rw [← hc₂, hieq, hcastlen]
        have hxeq : h₂ = ((⌊h₂⌋ : ℤ) : ℝ) := by
          have := Int.floor_le h₂
          rw [hfl]
          linarith
        unfold interpSorted
        rw [← hxeq]
        simp
    linarith

lemma npQuantile_mono {xs : List ℝ} (hne : xs ≠ []) {p q : ℝ}
    (hp : 0 ≤ p) (hpq : p ≤ q) (hq1 : q ≤ 1) :
    npQuantile xs p ≤ npQuantile xs q := by
  have hlen : (List.insertionSort (· ≤ ·) xs).length = xs.length :=
    (List.perm_insertionSort _ xs).length_eq
  have hsorted : (List.insertionSort (· ≤ ·) xs).Sorted (· ≤ ·) :=
    List.sorted_insertionSort _ xs
  have hxs : 0 < xs.length := List.length_pos.mpr hne
  have hone : (1 : ℝ) ≤ (xs.length : ℝ) := by exact_mod_cast hxs
  have hne' : List.insertionSort (· ≤ ·) xs ≠ [] := by
    intro h
    rw [h] at hlen
    exact hne (List.length_eq_zero.mp hlen.symm)
  unfold npQuantile
  apply interpSorted_mono hsorted hne'
  · exact mul_nonneg hp (by linarith)
  · exact mul_le_mul_of_nonneg_right hpq (by linarith)
  · rw [hlen]
    nlinarith

lemma band_le (rows : List (List ℝ)) (g : ℕ) (a : ℚ) (i : ℕ)
    (hrows : rows ≠ []) (h1 : 1 / 2 < a) (h2 : a ≤ 1) :
    (bandUpper rows g a).getD i 0 ≤ (bandLower rows g a).getD i 0 := by
  have hcol : columnOf rows i ≠ [] := by simp [columnOf, hrows]
  by_cases hi : i < g
  · have hu : (bandUpper rows g a).getD i 0 =
        npQuantile (columnOf rows i) (((1 - a : ℚ) : ℝ)) := by
      rw [bandUpper, List.getD_eq_getElem _ _ (by simpa using hi)]
      simp
    have hl : (bandLower rows g a).getD i 0 =
        npQuantile (columnOf rows i) ((a : ℚ) : ℝ) := by
      rw [bandLower, List.getD_eq_getElem _ _ (by simpa using hi)]
      simp
    rw [hu, hl]
    apply npQuantile_mono hcol
    · push_cast
      linarith [(by exact_mod_cast h2 : ((a : ℚ) : ℝ) ≤ 1)]
    · push_cast
      linarith [(by exact_mod_cast h1 : ((1 : ℚ) : ℝ) / 2 < ((a : ℚ) : ℝ))]
    · exact_mod_cast h2
  · rw [List.getD_eq_default _ _ (by simp [bandUpper]; omega),
      List.getD_eq_default _ _ (by simp [bandLower]; omega)]

/-- C8: `fit_generic` builds a dense grid of exactly 1000 evenly
spaced temperatures running from the observed minimum to the observed
maximum, and the returned predicted curve is the fitted evaluation
function applied to that grid, of length 1000 (given that the
evaluation function predicts one value per temperature). -/
theorem C8_dense_grid (cfg : MBConfig) (flag : Bool)
    (fitf : List ℚ → ℚ → ℚ → List ℝ) (fmt : String → ℝ → ℝ → String)
    (gauss : ℕ → ℕ → ℝ) (TT data : List ℚ)
    (lsq : LsqResult TT.length) (cf : CFResult)
    (hlen : ∀ (l : List ℚ) (t p : ℚ), (fitf l t p).length = l.length) :
    denseGridOK fitf cf TT
      (fit_generic cfg flag fitf fmt gauss TT data lsq cf) := by
  have hdense : (fit_generic cfg flag fitf fmt gauss TT data lsq cf).dense =
      npLinspace (npMin TT) (npMax TT) 1000 := by
    cases flag <;> rfl
  have hpred : (fit_generic cfg flag fitf fmt gauss TT data lsq cf).pred =
      fitf (npLinspace (npMin TT) (npMax TT) 1000) (cf.popt 0)
        (cf.popt 1) := by
    cases flag <;> rfl
  refine ⟨hdense, ?_, ?_, ?_, ?_, ?_, ?_⟩
  · rw [hdense, npLinspace_length]
  · rw [hdense, npLinspace_getD _ _ _ _ (by norm_num)]
    norm_num
  · rw [hdense, npLinspace_getD _ _ _ _ (by norm_num)]
    norm_num
  · intro i hi
    rw [hdense, npLinspace_getD _ _ _ _ hi,
      npLinspace_getD _ _ _ _ (by omega)]
    push_cast
    ring
  · rw [hpred, hdense]
  · rw [hpred, hlen, npLinspace_length]

/-- Witness for C8 at the concrete sweep `TT = [1/10, 2/5]` with a
concrete evaluation function. -/
theorem C8_dense_grid_witness :
    (∀ (l : List ℚ) (t p : ℚ), (wfitf l t p).length = l.length)
    ∧ denseGridOK wfitf wcf [1 / 10, 2 / 5]
        (fit_generic defaultCfg false wfitf wfmt wgauss [1 / 10, 2 / 5]
          [0, 0] wlsq2 wcf) :=
  ⟨fun l t p => by simp [wfitf],
   C8_dense_grid defaultCfg false wfitf wfmt wgauss [1 / 10, 2 / 5]
     [0, 0] wlsq2 wcf (fun l t p => by simp [wfitf])⟩

/-- C9: with confidence level above one half (as the default 0.95 is),
the bound returned in the upper position of `fit_generic` is the
`1 - a` empirical quantile and the one in the lower position the `a`
quantile, so pointwise the returned upper band lies at or below the
returned lower band: the two bounds are inverted relative to their
names. -/
theorem C9_band_inverted (cfg : MBConfig) (flag : Bool)
    (fitf : List ℚ → ℚ → ℚ → List ℝ) (fmt : String → ℝ → ℝ → String)
    (gauss : ℕ → ℕ → ℝ) (TT data : List ℚ)
    (lsq : LsqResult TT.length) (cf : CFResult) (i : ℕ)
    (h1 : 1 / 2 < cfg.confidence_level)
    (h2 : cfg.confidence_level ≤ 1) :
    ((fit_generic cfg flag fitf fmt gauss TT data lsq cf).upper).getD i 0 ≤
    ((fit_generic cfg flag fitf fmt gauss TT data lsq cf).lower).getD i 0 := by
  have hrows : ∀ (dp : List ℝ) (ns : ℝ), mcPredictions gauss dp ns ≠ [] := by
    intro dp ns h
    have hlen10k : (mcPredictions gauss dp ns).length = 10000 := by
      simp [mcPredictions]
    rw [h] at hlen10k
    simp at hlen10k
  cases flag
  · exact band_le _ _ _ _ (hrows _ _) h1 h2
  · exact band_le _ _ _ _ (hrows _ _) h1 h2

/-- Witness for C9 at a concrete configuration with confidence level
1 and concrete solver results. -/
theorem C9_band_inverted_witness :
    (1 : ℚ) / 2 < wcfg.confidence_level
    ∧ wcfg.confidence_level ≤ 1
    ∧ ((fit_generic wcfg false wfitf wfmt wgauss [1] [0] wlsq1
          wcf).upper).getD 0 0 ≤
      ((fit_generic wcfg false wfitf wfmt wgauss [1] [0] wlsq1
          wcf).lower).getD 0 0 :=
  ⟨one_half_lt_one, le_refl 1,
   C9_band_inverted wcfg false wfitf wfmt wgauss [1] [0] wlsq1 wcf 0
     one_half_lt_one (le_refl 1)⟩

/-- Witness for C10 at the concrete values `Qi[0] = 2`, `fc[0] = 3`. -/
theorem C10_reference_mismatch_witness :
    (2 : ℚ) ≠ 0 ∧ (3 : ℚ) ≠ 0 ∧ refMismatchOK 2 3 [] [] :=
  ⟨by decide, by decide,
   C10_reference_mismatch 2 3 [] [] (by decide) (by decide)⟩

end MBFit
